import Mathlib

/-!
Shallow embedding of the receipt-processor service (`solution.go`).

Modelling conventions:
* Go strings are Lean `String`s; `len` on a Go string counts UTF-8 bytes,
  modelled by `goLen` (sum of the UTF-8 sizes of the runes).
* `strconv.ParseFloat` / `math.Mod` / `math.Ceil` operate on `float64` in the
  source. Here numeric strings are given exact decimal semantics:
  `parseDecimal` parses the plain decimal forms (optional sign, digits,
  optional fraction, optional e-exponent) into a mantissa/scale pair
  `(m, k)` denoting the rational value `m / 10^k`. Over this representation
  `math.Mod(t, 1) == 0` is exactly `10^k ∣ m`, `math.Mod(t, 0.25) == 0` is
  exactly `10^k ∣ 4*m` (fmod is exact on such operands), and
  `int(math.Ceil(t * 0.2))` is exactly `⌈m / (5 * 10^k)⌉`. The special forms
  Go also accepts ("inf", "nan", hex floats, digit-group underscores) and
  IEEE-754 rounding are not modelled; on every two-decimal monetary string
  the validator admits (magnitude far below 2^45) the float64 computations
  of the source agree with these exact ones, so every verdict coincides.
* `strconv.Atoi` (= `ParseInt(s, 10, 0)` on a 64-bit platform) returns 0 on a
  syntax error and the clamped extreme int64 on a range error; the error is
  discarded by the source, so `goAtoi` returns the value component only.
* The store's two global maps and the mutex are modelled as an explicit
  `StoreState`; the handler bodies become functions on it.
-/

deriving instance DecidableEq for Except

/-- `Item` of solution.go (lines 24-27): shortDescription and price, both strings. -/
structure Item where
  ShortDescription : String
  Price : String
deriving DecidableEq, Repr

/-- `Receipt` of solution.go (lines 16-22). -/
structure Receipt where
  Retailer : String
  PurchaseDate : String
  PurchaseTime : String
  Items : List Item
  Total : String
deriving DecidableEq, Repr

/-- Value of a list of decimal digit characters, most significant first. -/
def digitsToNat (ds : List Char) : Nat :=
  ds.foldl (fun acc c => acc * 10 + (c.toNat - '0'.toNat)) 0

/-- Decimal integer syntax accepted by Go `strconv.ParseInt(s, 10, _)`:
optional single sign, then one or more ASCII digits, nothing else.
Returns the unclamped mathematical value, or `none` on a syntax error. -/
def parseIntOpt (s : String) : Option Int :=
  let p : Int × List Char :=
    match s.toList with
    | '+' :: r => (1, r)
    | '-' :: r => (-1, r)
    | r => (1, r)
  if p.2 ≠ [] ∧ p.2.all Char.isDigit then some (p.1 * (digitsToNat p.2 : Int)) else none

/-- `strconv.Atoi` with the error discarded, as the source does
(`day, _ := strconv.Atoi(...)`): 0 on a syntax error, the value clamped to
the int64 range on a range error (Go returns the extreme value then). -/
def goAtoi (s : String) : Int :=
  match parseIntOpt s with
  | none => 0
  | some v =>
    if v > (2 ^ 63 - 1 : Int) then 2 ^ 63 - 1
    else if v < -(2 ^ 63 : Int) then -(2 ^ 63) else v

/-- Apply sign and base-10 exponent `e` to the mantissa/scale pair
`(m, k)` (value `m / 10^k`), renormalising so the result scale is a `Nat`:
the value of the result pair is `sgn * m * 10^e / 10^k` exactly. -/
def scaleByExp (sgn m : Int) (k : Nat) (e : Int) : Int × Nat :=
  let j : Int := (k : Int) - e
  if j ≤ 0 then (sgn * m * 10 ^ (-j).toNat, 0) else (sgn * m, j.toNat)

/-- Parse the exponent suffix (`e`/`E`, optional sign, one or more digits)
or the end of the string, yielding the exponent (0 when absent). -/
def parseExpSuffix (cs : List Char) : Option Int :=
  match cs with
  | [] => some 0
  | e :: rest =>
    if e = 'e' ∨ e = 'E' then
      let p : Int × List Char :=
        match rest with
        | '+' :: r => (1, r)
        | '-' :: r => (-1, r)
        | r => (1, r)
      if p.2 ≠ [] ∧ p.2.all Char.isDigit then some (p.1 * (digitsToNat p.2 : Int)) else none
    else none

/-- `strconv.ParseFloat` on the plain decimal grammar, with exact decimal
semantics: optional sign, digits with an optional fractional part (at least
one digit overall, `"5."` and `".5"` both legal in Go), optional exponent.
The result pair `(m, k)` denotes the exact value `m / 10^k`; `none` models a
Go parse error (see the module comment for the unmodelled special forms). -/
def parseDecimal (s : String) : Option (Int × Nat) :=
  let p : Int × List Char :=
    match s.toList with
    | '+' :: r => (1, r)
    | '-' :: r => (-1, r)
    | r => (1, r)
  let ds := p.2.takeWhile Char.isDigit
  let rest := p.2.dropWhile Char.isDigit
  match rest with
  | '.' :: rest2 =>
    let fs := rest2.takeWhile Char.isDigit
    let rest3 := rest2.dropWhile Char.isDigit
    if ds = [] ∧ fs = [] then none
    else
      (parseExpSuffix rest3).map fun e =>
        scaleByExp p.1 (digitsToNat ds * 10 ^ fs.length + digitsToNat fs) fs.length e
  | _ =>
    if ds = [] then none
    else (parseExpSuffix rest).map fun e => scaleByExp p.1 (digitsToNat ds) 0 e

/-- Ceiling division `⌈a / b⌉` for `0 < b`, on integers
(`Int.ediv` is floor division, so `(a + b - 1).ediv b = ⌈a / b⌉`). -/
def ceilDiv (a b : Int) : Int :=
  Int.ediv (a + b - 1) b

/-- The character class `[a-zA-Z0-9]` of the retailer-stripping regexp
(solution.go line 47). -/
def goIsAlphanumeric (c : Char) : Bool :=
  c.isAlpha || c.isDigit

/-- Retailer rule (solution.go lines 47-49): strip every rune that is not an
ASCII letter or digit, then count the bytes that remain (all remaining runes
are ASCII, so bytes = characters). -/
def retailerPoints (s : String) : Int :=
  ((s.toList.filter goIsAlphanumeric).length : Int)

/-- Total rules (solution.go lines 51-59): parse the total with the error
discarded (value 0 on failure), +50 when `math.Mod(total, 1) == 0`
(the value `m / 10^k` is an integer), +25 when `math.Mod(total, 0.25) == 0`
(the value is a multiple of 1/4); the two tests are independent. -/
def totalPoints (total : String) : Int :=
  let p := (parseDecimal total).getD (0, 0)
  (if Int.emod p.1 (10 ^ p.2) = 0 then 50 else 0) +
    (if Int.emod (4 * p.1) (10 ^ p.2) = 0 then 25 else 0)

/-- Item-pair rule (solution.go line 61): `(len(items) / 2) * 5`. -/
def pairPoints (items : List Item) : Int :=
  ((items.length / 2) * 5 : Nat)

/-- `unicode.IsSpace`, the predicate `strings.TrimSpace` trims by:
the White_Space runes. -/
def goIsSpace (c : Char) : Bool :=
  c ∈ ['\t', '\n', '\x0b', '\x0c', '\r', ' ',
       '\u0085', '\u00A0', '\u1680',
       '\u2000', '\u2001', '\u2002', '\u2003', '\u2004', '\u2005',
       '\u2006', '\u2007', '\u2008', '\u2009', '\u200A',
       '\u2028', '\u2029', '\u202F', '\u205F', '\u3000']

/-- `strings.TrimSpace`: drop leading and trailing White_Space runes. -/
def goTrimSpace (s : String) : String :=
  String.mk (((s.toList.dropWhile goIsSpace).reverse.dropWhile goIsSpace).reverse)

/-- UTF-8 size in bytes of one rune. -/
def charUtf8Size (c : Char) : Nat :=
  if c.toNat < 128 then 1 else if c.toNat < 2048 then 2
  else if c.toNat < 65536 then 3 else 4

/-- Go `len` on a string: its UTF-8 byte count. -/
def goLen (s : String) : Nat :=
  (s.toList.map charUtf8Size).sum

/-- Per-item description rule (solution.go lines 63-69): trim the
description; when the byte length of the result is divisible by 3 —
including length 0 — add `int(math.Ceil(price * 0.2))`, i.e.
`⌈m / (5 * 10^k)⌉` for the parsed price `m / 10^k` (0 on a parse failure). -/
def itemDescPoints (i : Item) : Int :=
  if goLen (goTrimSpace i.ShortDescription) % 3 = 0 then
    let p := (parseDecimal i.Price).getD (0, 0)
    ceilDiv p.1 (5 * 10 ^ p.2)
  else 0

/-- Sum of the description rule over the items (the loop of lines 63-69). -/
def descPoints (items : List Item) : Int :=
  (items.map itemDescPoints).sum

/-- `strings.Split` on a one-byte separator, over rune lists:
every separator occurrence splits, empty pieces kept, `[[]]` for `[]`. -/
def splitList (cs : List Char) (sep : Char) : List (List Char) :=
  match cs with
  | [] => [[]]
  | c :: rest =>
    if c = sep then [] :: splitList rest sep
    else
      match splitList rest sep with
      | [] => [[c]]
      | h :: t => (c :: h) :: t

/-- `strings.Split` on a one-byte separator. -/
def goSplit (s : String) (sep : Char) : List String :=
  (splitList s.toList sep).map String.mk

/-- Odd-day rule (solution.go lines 71-77): split the date on `"-"`; with
exactly 3 parts, +6 when `Atoi(parts[2]) % 2 != 0`. -/
def dayPoints (date : String) : Int :=
  let dateParts := goSplit date '-'
  if dateParts.length = 3 then
    if goAtoi (dateParts.getD 2 "") % 2 ≠ 0 then 6 else 0
  else 0

/-- Afternoon-window rule (solution.go lines 79-87): split the time on
`":"`; with exactly 2 parts, +10 when `hour*60 + minute ∈ [840, 960)`. -/
def timePoints (t : String) : Int :=
  let timeParts := goSplit t ':'
  if timeParts.length = 2 then
    let timeVal := goAtoi (timeParts.getD 0 "") * 60 + goAtoi (timeParts.getD 1 "")
    if 840 ≤ timeVal ∧ timeVal < 960 then 10 else 0
  else 0

/-- `calculatePoints` (solution.go lines 44-90): the six additive blocks,
accumulated in source order. -/
def calculatePoints (receipt : Receipt) : Int :=
  retailerPoints receipt.Retailer + totalPoints receipt.Total +
    pairPoints receipt.Items + descPoints receipt.Items +
    dayPoints receipt.PurchaseDate + timePoints receipt.PurchaseTime

/-- RE2 `\w`: ASCII word characters `[0-9A-Za-z_]`. -/
def isWordChar (c : Char) : Bool :=
  c.isAlpha || c.isDigit || c = '_'

/-- RE2 `\s` (Perl whitespace class): `[\t\n\f\r ]`. -/
def isRE2Space (c : Char) : Bool :=
  c ∈ ['\t', '\n', '\x0c', '\r', ' ']

/-- The retailer regexp of solution.go line 108, `^[\w\s\-&]+$`:
nonempty, every rune a word character, Perl whitespace, hyphen or
ampersand. -/
def matchRetailer (s : String) : Bool :=
  !s.toList.isEmpty &&
    s.toList.all (fun c => isWordChar c || isRE2Space c || c = '-' || c = '&')

/-- The two-decimal money regexp of solution.go line 121, `^\d+\.\d{2}$`:
one or more digits, a literal dot, exactly two digits. -/
def matchTwoDecimal (s : String) : Bool :=
  match s.toList.reverse with
  | b :: a :: '.' :: rest =>
    a.isDigit && b.isDigit && !rest.isEmpty && rest.all Char.isDigit
  | _ => false

/-- The description regexp of solution.go line 130, `^[\w\s\-]+$`. -/
def matchDescPattern (s : String) : Bool :=
  !s.toList.isEmpty &&
    s.toList.all (fun c => isWordChar c || isRE2Space c || c = '-')

/-- Whether `y` is a leap year (Gregorian rule, as Go `time`). -/
def isLeapYear (y : Nat) : Bool :=
  y % 4 = 0 && (y % 100 ≠ 0 || y % 400 = 0)

/-- Days in month `m` of year `y` (Go `time` daysIn). -/
def daysInMonth (y m : Nat) : Nat :=
  if m = 2 then (if isLeapYear y then 29 else 28)
  else if m = 4 ∨ m = 6 ∨ m = 9 ∨ m = 11 then 30
  else 31

/-- Go `time.Parse("2006-01-02", s)` succeeding: the layout demands exactly
four year digits, a hyphen, exactly two month digits, a hyphen, exactly two
day digits, nothing left over; Parse then rejects a month outside 1..12 and
a day outside 1..daysIn(month, year). -/
def goParseDate (s : String) : Bool :=
  match s.toList with
  | [y1, y2, y3, y4, '-', m1, m2, '-', d1, d2] =>
    [y1, y2, y3, y4, m1, m2, d1, d2].all Char.isDigit &&
      (let y := digitsToNat [y1, y2, y3, y4]
       let m := digitsToNat [m1, m2]
       let d := digitsToNat [d1, d2]
       1 ≤ m && m ≤ 12 && 1 ≤ d && d ≤ daysInMonth y m)
  | _ => false

/-- Go `time.Parse("15:04", s)` succeeding: the hour (layout `15`) takes one
or two digits, then a literal colon, then exactly two minute digits, nothing
left over; Parse then rejects hour ≥ 24 and minute ≥ 60. -/
def goParseTimeHM (s : String) : Bool :=
  match s.toList with
  | [h1, h2, ':', m1, m2] =>
    [h1, h2, m1, m2].all Char.isDigit &&
      digitsToNat [h1, h2] < 24 && digitsToNat [m1, m2] < 60
  | [h1, ':', m1, m2] =>
    [h1, m1, m2].all Char.isDigit && digitsToNat [m1, m2] < 60
  | _ => false

/-- Per-item checks of the loop in solution.go lines 126-137. -/
def itemOk (i : Item) : Bool :=
  i.ShortDescription ≠ "" && i.Price ≠ "" &&
    matchDescPattern i.ShortDescription && matchTwoDecimal i.Price

/-- `validateReceipt` (solution.go lines 103-139). Every failure returns the
same uniform error value; success returns `ok`. -/
def validateReceipt (receipt : Receipt) : Except String Unit :=
  if receipt.Retailer = "" ∨ receipt.PurchaseDate = "" ∨ receipt.PurchaseTime = "" ∨
      receipt.Total = "" ∨ receipt.Items.isEmpty then
    .error "The receipt is invalid."
  else if ¬ matchRetailer receipt.Retailer then .error "The receipt is invalid."
  else if ¬ goParseDate receipt.PurchaseDate then .error "The receipt is invalid."
  else if ¬ goParseTimeHM receipt.PurchaseTime then .error "The receipt is invalid."
  else if ¬ matchTwoDecimal receipt.Total then .error "The receipt is invalid."
  else if ¬ receipt.Items.all itemOk then .error "The receipt is invalid."
  else .ok ()

/-- The two global maps of solution.go lines 37-41: `receipts` and `points`,
keyed by the generated identifier. -/
structure StoreState where
  receipts : String → Option Receipt
  points : String → Option Int

/-- The store before any insert. -/
def emptyStore : StoreState :=
  ⟨fun _ => none, fun _ => none⟩

/-- The unsynchronized write `points[id] = calculatePoints(receipt)` of
solution.go line 171 — executed by `processReceiptHandler` BEFORE acquiring
the mutex. -/
def writePoints (s : StoreState) (id : String) (pts : Int) : StoreState :=
  { s with points := fun k => if k = id then some pts else s.points k }

/-- The mutex-protected write `receipts[id] = receipt` of solution.go
line 173. -/
def writeReceipt (s : StoreState) (id : String) (r : Receipt) : StoreState :=
  { s with receipts := fun k => if k = id then some r else s.receipts k }

/-- Net store effect of `processReceiptHandler` (solution.go lines 170-174)
once both writes have executed. -/
def processInsert (s : StoreState) (id : String) (r : Receipt) : StoreState :=
  writeReceipt (writePoints s id (calculatePoints r)) id r

/-- The read `p, exists := points[id]` of `getPointsHandler`
(solution.go line 145). -/
def lookupPoints (s : StoreState) (id : String) : Option Int :=
  s.points id

/-- C1: the worked example of the spec: the Target receipt scores exactly 28:
6 retailer alphanumerics + 0 (total 35.35 fails both mod tests) + 10 pair
points (floor(5/2)*5) + 3 + 3 for the two descriptions of trimmed length
divisible by 3 + 6 for the odd day + 0 (13:01 outside the window). -/
theorem c1_target_receipt_scores_28 :
    calculatePoints
      { Retailer := "Target"
        PurchaseDate := "2022-01-01"
        PurchaseTime := "13:01"
        Items :=
          [{ ShortDescription := "Mountain Dew 12PK", Price := "6.49" },
           { ShortDescription := "Emils Cheese Pizza", Price := "12.25" },
           { ShortDescription := "Knorr Creamy Chicken", Price := "1.26" },
           { ShortDescription := "Doritos Nacho Cheese", Price := "3.35" },
           { ShortDescription := "   Klarbrunn 12-PK 12 FL OZ  ", Price := "12.00" }]
        Total := "35.35" } = 28 := by
  decide

/-- Helper: a successful validation implies every individual check passed
(solution.go lines 103-139: any failing check returns before `nil`). -/
theorem validateReceipt_ok_checks (r : Receipt) (h : validateReceipt r = .ok ()) :
    matchRetailer r.Retailer = true ∧ goParseDate r.PurchaseDate = true ∧
      goParseTimeHM r.PurchaseTime = true ∧ matchTwoDecimal r.Total = true ∧
      r.Items.all itemOk = true := by
  unfold validateReceipt at h
  split_ifs at h <;> simp_all

/-- Helper: `validateReceipt` returns either success or the one uniform
error value — no other result is possible. -/
theorem validateReceipt_uniform (r : Receipt) :
    validateReceipt r = .ok () ∨ validateReceipt r = .error "The receipt is invalid." := by
  unfold validateReceipt
  split_ifs <;> simp

/-- C2 (code_bug evidence): `processReceiptHandler` performs
`points[id] = calculatePoints(receipt)` (line 171) BEFORE acquiring the
mutex (line 172); only `receipts[id] = receipt` (line 173) is inside the
critical section. In the store state between those two writes — observable
by the mutex-protected reader of `getPointsHandler`, and produced by an
unsynchronized map write — the identifier has points but no stored receipt,
the very state the claim says no reader can observe. -/
theorem c2_points_visible_before_receipt_write :
    validateReceipt
        { Retailer := "Shop", PurchaseDate := "2022-01-02", PurchaseTime := "10:00",
          Items := [{ ShortDescription := "Item A", Price := "1.00" }],
          Total := "1.00" } = .ok () ∧
    lookupPoints
        (writePoints emptyStore "e3b0"
          (calculatePoints
            { Retailer := "Shop", PurchaseDate := "2022-01-02", PurchaseTime := "10:00",
              Items := [{ ShortDescription := "Item A", Price := "1.00" }],
              Total := "1.00" })) "e3b0" ≠ none ∧
    (writePoints emptyStore "e3b0"
        (calculatePoints
          { Retailer := "Shop", PurchaseDate := "2022-01-02", PurchaseTime := "10:00",
            Items := [{ ShortDescription := "Item A", Price := "1.00" }],
            Total := "1.00" })).receipts "e3b0" = none := by
  refine ⟨by decide, ?_, rfl⟩
  decide

/-- C9: round-trip: inserting a validator-accepted receipt under the
generated identifier and then looking up points by that identifier yields
exactly the score `calculatePoints` produced at insert time. -/
theorem c9_insert_lookup_roundtrip (s : StoreState) (id : String) (r : Receipt)
    (_hv : validateReceipt r = .ok ()) :
    lookupPoints (processInsert s id r) id = some (calculatePoints r) := by
  simp [lookupPoints, processInsert, writeReceipt, writePoints]

/-- C9 witness: the round-trip at a concrete accepted receipt. -/
theorem c9_insert_lookup_roundtrip_witness :
    validateReceipt
        { Retailer := "Corner Store", PurchaseDate := "2023-07-14", PurchaseTime := "15:30",
          Items := [{ ShortDescription := "Gum", Price := "0.75" }],
          Total := "0.75" } = .ok () ∧
      lookupPoints
        (processInsert emptyStore "a1f2"
          { Retailer := "Corner Store", PurchaseDate := "2023-07-14", PurchaseTime := "15:30",
            Items := [{ ShortDescription := "Gum", Price := "0.75" }],
            Total := "0.75" }) "a1f2" =
        some (calculatePoints
          { Retailer := "Corner Store", PurchaseDate := "2023-07-14", PurchaseTime := "15:30",
            Items := [{ ShortDescription := "Gum", Price := "0.75" }],
            Total := "0.75" }) :=
  ⟨by decide, c9_insert_lookup_roundtrip emptyStore "a1f2" _ (by decide)⟩

/-- C3 counterexample: the receipt whose total is the unparsable string "x"
(all other fields empty). Every other rule contributes 0, and the claim
says a failed total parse contributes zero points for its sub-computation,
so the claim predicts 0 points; the code parses the total as value 0 with
the error discarded, and value 0 passes both mod tests, scoring 75. -/
theorem c3_failed_total_parse_scores_75 :
    parseDecimal "x" = none ∧
      calculatePoints
        { Retailer := "", PurchaseDate := "", PurchaseTime := "",
          Items := [], Total := "x" } = 75 :=
  ⟨by decide, by decide⟩

/-- C3 amended: `calculatePoints` is total (never faults), and a field whose
numeric parse fails is treated as the VALUE 0 in its sub-computation — not
as zero points: a failed total parse makes both mod rules fire (+75); a
failed item-price parse contributes 0 (`ceil(0 * 0.2) = 0`); a failed day
parse contributes 0 (0 is even); failed hour and minute parses give
`timeVal = 0`, outside the window, 0 points. -/
theorem c3_failed_parses_behave_as_zero (r : Receipt) :
    (parseDecimal r.Total = none → totalPoints r.Total = 75) ∧
      (∀ i ∈ r.Items, parseDecimal i.Price = none → itemDescPoints i = 0) ∧
      (parseIntOpt ((goSplit r.PurchaseDate '-').getD 2 "") = none →
        dayPoints r.PurchaseDate = 0) ∧
      (parseIntOpt ((goSplit r.PurchaseTime ':').getD 0 "") = none →
        parseIntOpt ((goSplit r.PurchaseTime ':').getD 1 "") = none →
        timePoints r.PurchaseTime = 0) := by
  refine ⟨fun h => ?_, fun i _ h => ?_, fun h => ?_, fun h1 h2 => ?_⟩
  · simp only [totalPoints, h, Option.getD_none]
    decide
  · simp only [itemDescPoints, h, Option.getD_none]
    split <;> decide
  · simp only [dayPoints, goAtoi, h]
    split <;> simp
  · simp only [timePoints, goAtoi, h1, h2]
    split <;> simp

/-- C3 witness: the amended behavior at a receipt whose total, item price,
day, hour and minute all fail to parse. -/
theorem c3_failed_parses_behave_as_zero_witness :
    parseDecimal "x" = none ∧ totalPoints "x" = 75 ∧
      parseDecimal "y" = none ∧
      itemDescPoints { ShortDescription := "d", Price := "y" } = 0 ∧
      parseIntOpt "c" = none ∧ dayPoints "a-b-c" = 0 ∧
      parseIntOpt "p" = none ∧ parseIntOpt "q" = none ∧ timePoints "p:q" = 0 :=
  ⟨by decide,
   (c3_failed_parses_behave_as_zero
      { Retailer := "", PurchaseDate := "a-b-c", PurchaseTime := "p:q",
        Items := [{ ShortDescription := "d", Price := "y" }], Total := "x" }).1 (by decide),
   by decide,
   (c3_failed_parses_behave_as_zero
      { Retailer := "", PurchaseDate := "a-b-c", PurchaseTime := "p:q",
        Items := [{ ShortDescription := "d", Price := "y" }], Total := "x" }).2.1
     { ShortDescription := "d", Price := "y" } (by decide) (by decide),
   by decide,
   (c3_failed_parses_behave_as_zero
      { Retailer := "", PurchaseDate := "a-b-c", PurchaseTime := "p:q",
        Items := [{ ShortDescription := "d", Price := "y" }], Total := "x" }).2.2.1 (by decide),
   by decide, by decide,
   (c3_failed_parses_behave_as_zero
      { Retailer := "", PurchaseDate := "a-b-c", PurchaseTime := "p:q",
        Items := [{ ShortDescription := "d", Price := "y" }], Total := "x" }).2.2.2
     (by decide) (by decide)⟩

/-- Helper: the RE2 `\s` class is contained in Go's `unicode.IsSpace`
(White_Space) class, which `strings.TrimSpace` trims by. -/
theorem goIsSpace_of_isRE2Space (c : Char) (h : isRE2Space c = true) :
    goIsSpace c = true := by
  have h2 : c ∈ ['\t', '\n', '\x0c', '\r', ' '] := by simpa [isRE2Space] using h
  fin_cases h2 <;> decide

/-- C4: for every item of a receipt the scorer adds `ceil(price * 0.2)` —
`⌈m / (5 * 10^k)⌉` for the parsed price `m / 10^k` — exactly when the
trimmed description's byte length is divisible by 3, and an empty trimmed
description (length 0) also earns the bonus; the scorer sums this over the
items. -/
theorem c4_desc_mod3_bonus (r : Receipt) (i : Item) (_h : i ∈ r.Items) :
    (itemDescPoints i =
      if goLen (goTrimSpace i.ShortDescription) % 3 = 0 then
        ceilDiv ((parseDecimal i.Price).getD (0, 0)).1
          (5 * 10 ^ ((parseDecimal i.Price).getD (0, 0)).2)
      else 0) ∧
      (goTrimSpace i.ShortDescription = "" →
        itemDescPoints i =
          ceilDiv ((parseDecimal i.Price).getD (0, 0)).1
            (5 * 10 ^ ((parseDecimal i.Price).getD (0, 0)).2)) ∧
      descPoints r.Items = (r.Items.map itemDescPoints).sum := by
  refine ⟨rfl, fun he => ?_, rfl⟩
  simp [itemDescPoints, he, goLen]

/-- C4 witness: a whitespace-only description trims to length 0 and earns
`ceil(12.25 * 0.2) = 3`. -/
theorem c4_desc_mod3_bonus_witness :
    ({ ShortDescription := "  ", Price := "12.25" } : Item) ∈
        [({ ShortDescription := "  ", Price := "12.25" } : Item)] ∧
      goTrimSpace "  " = "" ∧
      itemDescPoints { ShortDescription := "  ", Price := "12.25" } =
        ceilDiv ((parseDecimal "12.25").getD (0, 0)).1
          (5 * 10 ^ ((parseDecimal "12.25").getD (0, 0)).2) ∧
      itemDescPoints { ShortDescription := "  ", Price := "12.25" } = 3 :=
  ⟨by decide, by decide,
   (c4_desc_mod3_bonus
      { Retailer := "", PurchaseDate := "", PurchaseTime := "",
        Items := [{ ShortDescription := "  ", Price := "12.25" }], Total := "" }
      { ShortDescription := "  ", Price := "12.25" } (by decide)).2.1 (by decide),
   by decide⟩

/-- C5: a validator-accepted purchaseDate passes `time.Parse("2006-01-02", ·)`,
which accepts exactly the 10-character `YYYY-MM-DD` calendar dates: no
partial parse (trailing text, wrong widths or other textual forms fail),
no out-of-range month ("2022-13-01" rejected) or day (including month-length
and leap-year rules). -/
theorem c5_date_exact_calendar (r : Receipt) :
    (validateReceipt r = .ok () → goParseDate r.PurchaseDate = true) ∧
      goParseDate "2022-13-01" = false ∧ goParseDate "2022-01-32" = false ∧
      goParseDate "2021-02-29" = false ∧ goParseDate "2024-02-29" = true ∧
      goParseDate "2022-1-1" = false ∧ goParseDate "01/02/2022" = false ∧
      goParseDate "2022-01-01 " = false ∧ goParseDate " 2022-01-01" = false ∧
      goParseDate "2022-01-01" = true ∧
      (r.PurchaseDate = "2022-13-01" → validateReceipt r ≠ .ok ()) := by
  refine ⟨fun h => (validateReceipt_ok_checks r h).2.1, by decide, by decide, by decide,
    by decide, by decide, by decide, by decide, by decide, by decide, fun hd hok => ?_⟩
  have := (validateReceipt_ok_checks r hok).2.1
  rw [hd] at this
  exact absurd this (by decide)

/-- C5 witness: the date check at a concrete accepted receipt. -/
theorem c5_date_exact_calendar_witness :
    validateReceipt
        { Retailer := "Market", PurchaseDate := "2022-01-02", PurchaseTime := "08:13",
          Items := [{ ShortDescription := "Milk", Price := "3.50" }],
          Total := "3.50" } = .ok () ∧
      goParseDate "2022-01-02" = true :=
  ⟨by decide,
   (c5_date_exact_calendar
      { Retailer := "Market", PurchaseDate := "2022-01-02", PurchaseTime := "08:13",
        Items := [{ ShortDescription := "Milk", Price := "3.50" }],
        Total := "3.50" }).1 (by decide)⟩

/-- C6: when purchaseTime splits on ":" into exactly two parts, the scorer
adds 10 points exactly when `hour*60 + minute` lies in `[840, 960)`;
"14:00" (840) and "15:59" (959) earn the bonus, "13:59" (839) and
"16:00" (960) do not. -/
theorem c6_afternoon_window (t hs ms : String) (h : goSplit t ':' = [hs, ms]) :
    (timePoints t =
      if 840 ≤ goAtoi hs * 60 + goAtoi ms ∧ goAtoi hs * 60 + goAtoi ms < 960 then 10
      else 0) ∧
      timePoints "14:00" = 10 ∧ timePoints "15:59" = 10 ∧
      timePoints "13:59" = 0 ∧ timePoints "16:00" = 0 := by
  refine ⟨?_, by decide, by decide, by decide, by decide⟩
  simp [timePoints, h]

/-- C6 witness: the window formula at the boundary time "14:00". -/
theorem c6_afternoon_window_witness :
    goSplit "14:00" ':' = ["14", "00"] ∧
      timePoints "14:00" =
        (if 840 ≤ goAtoi "14" * 60 + goAtoi "00" ∧ goAtoi "14" * 60 + goAtoi "00" < 960
          then 10 else 0) :=
  ⟨by decide, (c6_afternoon_window "14:00" "14" "00" (by decide)).1⟩

/-- C7: the round-dollar rule and the quarter rule are independent and both
fire for total "100.00": the total block contributes exactly 50 + 25 = 75
and the other five blocks are unchanged. -/
theorem c7_round_and_quarter_both_fire (r : Receipt) (h : r.Total = "100.00") :
    calculatePoints r =
      retailerPoints r.Retailer + 75 + pairPoints r.Items + descPoints r.Items +
        dayPoints r.PurchaseDate + timePoints r.PurchaseTime ∧
      totalPoints "100.00" = 50 + 25 := by
  have ht : totalPoints "100.00" = 75 := by decide
  constructor
  · unfold calculatePoints
    rw [h, ht]
  · decide

/-- C7 witness: both bonuses at a concrete receipt with total "100.00". -/
theorem c7_round_and_quarter_both_fire_witness :
    calculatePoints
        { Retailer := "A", PurchaseDate := "x", PurchaseTime := "y",
          Items := [], Total := "100.00" } =
      retailerPoints "A" + 75 + pairPoints [] + descPoints [] +
        dayPoints "x" + timePoints "y" ∧
      totalPoints "100.00" = 50 + 25 :=
  c7_round_and_quarter_both_fire
    { Retailer := "A", PurchaseDate := "x", PurchaseTime := "y",
      Items := [], Total := "100.00" } (by decide)

/-- C8: `validateReceipt` rejects, with the uniform error, every receipt
whose total fails the two-decimal pattern (one-or-more digits, a dot,
exactly two digits) and every receipt some item price of which fails the
same pattern; "12.5", "12.500", signed and exponent forms all fail it. -/
theorem c8_two_decimal_pattern_rejects (r : Receipt) :
    (matchTwoDecimal r.Total = false →
      validateReceipt r = .error "The receipt is invalid.") ∧
      (∀ i ∈ r.Items, matchTwoDecimal i.Price = false →
        validateReceipt r = .error "The receipt is invalid.") ∧
      matchTwoDecimal "12.5" = false ∧ matchTwoDecimal "12.500" = false ∧
      matchTwoDecimal "+12.50" = false ∧ matchTwoDecimal "-12.50" = false ∧
      matchTwoDecimal "1.2e3" = false ∧ matchTwoDecimal "12.50" = true := by
  refine ⟨fun h => ?_, fun i hi h => ?_, by decide, by decide, by decide, by decide,
    by decide, by decide⟩
  · rcases validateReceipt_uniform r with hok | herr
    · have := (validateReceipt_ok_checks r hok).2.2.2.1
      rw [this] at h
      cases h
    · exact herr
  · rcases validateReceipt_uniform r with hok | herr
    · have hall := (validateReceipt_ok_checks r hok).2.2.2.2
      have hok2 : itemOk i = true := List.all_eq_true.mp hall i hi
      have : matchTwoDecimal i.Price = true := by
        simp [itemOk] at hok2
        tauto
      rw [this] at h
      cases h
    · exact herr

/-- C8 witness: the rejection at a concrete receipt whose total is "12.5"
and whose item price is "12.500". -/
theorem c8_two_decimal_pattern_rejects_witness :
    matchTwoDecimal "12.5" = false ∧
      matchTwoDecimal "12.500" = false ∧
      ({ ShortDescription := "Tea", Price := "12.500" } : Item) ∈
        [({ ShortDescription := "Tea", Price := "12.500" } : Item)] ∧
      validateReceipt
          { Retailer := "B", PurchaseDate := "2022-01-01", PurchaseTime := "10:00",
            Items := [{ ShortDescription := "Tea", Price := "12.500" }],
            Total := "12.5" } = .error "The receipt is invalid." ∧
      validateReceipt
          { Retailer := "B", PurchaseDate := "2022-01-01", PurchaseTime := "10:00",
            Items := [{ ShortDescription := "Tea", Price := "12.500" }],
            Total := "12.50" } = .error "The receipt is invalid." :=
  ⟨by decide, by decide, by decide,
   (c8_two_decimal_pattern_rejects
      { Retailer := "B", PurchaseDate := "2022-01-01", PurchaseTime := "10:00",
        Items := [{ ShortDescription := "Tea", Price := "12.500" }],
        Total := "12.5" }).1 (by decide),
   (c8_two_decimal_pattern_rejects
      { Retailer := "B", PurchaseDate := "2022-01-01", PurchaseTime := "10:00",
        Items := [{ ShortDescription := "Tea", Price := "12.500" }],
        Total := "12.50" }).2.1 { ShortDescription := "Tea", Price := "12.500" }
     (by decide) (by decide)⟩

/-- C10: an item whose shortDescription is a nonempty string of whitespace
characters (from the regexp's `\s` class) passes the description pattern
`^[\w\s\-]+$`, its trimmed length is 0, and the scorer awards it
`ceil(price * 0.2)`; such a receipt is accepted whole by `validateReceipt`,
so the blank-description bonus is reachable through the public interface
(the concrete receipt here scores 77, one point of which is the blank
item's `ceil(4.00 * 0.2) = 1`). -/
theorem c10_blank_description_reachable (i : Item)
    (hne : i.ShortDescription ≠ "")
    (hsp : i.ShortDescription.toList.all isRE2Space = true) :
    matchDescPattern i.ShortDescription = true ∧
      goTrimSpace i.ShortDescription = "" ∧
      itemDescPoints i =
        ceilDiv ((parseDecimal i.Price).getD (0, 0)).1
          (5 * 10 ^ ((parseDecimal i.Price).getD (0, 0)).2) ∧
      validateReceipt
          { Retailer := "M", PurchaseDate := "2022-01-02", PurchaseTime := "13:01",
            Items := [{ ShortDescription := "   ", Price := "4.00" }],
            Total := "1.00" } = .ok () ∧
      calculatePoints
          { Retailer := "M", PurchaseDate := "2022-01-02", PurchaseTime := "13:01",
            Items := [{ ShortDescription := "   ", Price := "4.00" }],
            Total := "1.00" } = 77 := by
  have hsp2 : ∀ c ∈ i.ShortDescription.toList, isRE2Space c = true :=
    List.all_eq_true.mp hsp
  have hnil : i.ShortDescription.toList ≠ [] := by
    intro hl
    exact hne (String.ext hl)
  have htrim : goTrimSpace i.ShortDescription = "" := by
    unfold goTrimSpace
    have h1 : i.ShortDescription.toList.dropWhile goIsSpace = [] :=
      List.dropWhile_eq_nil_iff.mpr fun c hc => goIsSpace_of_isRE2Space c (hsp2 c hc)
    rw [h1]
    rfl
  refine ⟨?_, htrim, ?_, by decide, by decide⟩
  · unfold matchDescPattern
    have h2 : i.ShortDescription.toList.isEmpty = false := by
      simpa using hnil
    rw [h2]
    simp only [Bool.not_false, Bool.true_and]
    exact List.all_eq_true.mpr fun c hc => by
      simp [goIsSpace_of_isRE2Space, hsp2 c hc]
  · simp [itemDescPoints, htrim, goLen]

/-- C10 witness: the three-space description at price "4.00". -/
theorem c10_blank_description_reachable_witness :
    ("   " : String) ≠ "" ∧ ("   " : String).toList.all isRE2Space = true ∧
      matchDescPattern "   " = true ∧ goTrimSpace "   " = "" ∧
      itemDescPoints { ShortDescription := "   ", Price := "4.00" } =
        ceilDiv ((parseDecimal "4.00").getD (0, 0)).1
          (5 * 10 ^ ((parseDecimal "4.00").getD (0, 0)).2) :=
  ⟨by decide, by decide,
   (c10_blank_description_reachable
      { ShortDescription := "   ", Price := "4.00" } (by decide) (by decide)).1,
   (c10_blank_description_reachable
      { ShortDescription := "   ", Price := "4.00" } (by decide) (by decide)).2.1,
   (c10_blank_description_reachable
      { ShortDescription := "   ", Price := "4.00" } (by decide) (by decide)).2.2.1⟩
